import Mathlib

/-
  Shallow embedding of the `mongo` package (a thin reflective CRUD wrapper
  around the mgo driver).  Go values reached through `interface{}` are
  modelled by the inductive `GoVal`; struct fields are association lists
  from field name to `FieldVal`.  The mgo driver, `time.Now()` and
  `bson.NewObjectId()` are external collaborators and are modelled by the
  oracle record `Env`; successful driver writes are recorded in an audit
  log (`Store`).  Go `panic` is distinguished from returned errors by the
  three-way result type `Res`.
-/

namespace Mongo

/-- A BSON object id is 12 raw bytes (mgo: `type ObjectId string`, always
12 bytes long when valid). -/
abbrev Oid := List Nat

/-- mgo `ObjectId.Valid`: the underlying byte string has length 12. -/
def oidValid (o : Oid) : Bool := o.length = 12

/-- Lower-case hex digit for a value below 16 (as produced by Go
`hex.EncodeToString`). -/
def natToHexDigit (n : Nat) : Char :=
  if n < 10 then Char.ofNat (48 + n) else Char.ofNat (87 + n)

/-- Value of a hex digit character; accepts both cases like Go
`hex.DecodeString`. -/
def hexDigitToNat (c : Char) : Option Nat :=
  if 48 ≤ c.toNat ∧ c.toNat ≤ 57 then some (c.toNat - 48)
  else if 97 ≤ c.toNat ∧ c.toNat ≤ 102 then some (c.toNat - 87)
  else if 65 ≤ c.toNat ∧ c.toNat ≤ 70 then some (c.toNat - 55)
  else none

/-- Two-character lower-case hex rendering of one byte. -/
def byteToHex (b : Nat) : List Char :=
  [natToHexDigit (b / 16), natToHexDigit (b % 16)]

/-- mgo `ObjectId.Hex`: `hex.EncodeToString` over the 12 bytes. -/
def oidHexChars (o : Oid) : List Char := o.flatMap byteToHex

/-- mgo `ObjectId.Hex` as a `String`. -/
def oidHex (o : Oid) : String := String.mk (oidHexChars o)

/-- Go `hex.DecodeString`: pairs of hex digits; odd length or a non-hex
character fails. -/
def hexDecode : List Char → Option (List Nat)
  | [] => some []
  | [_] => none
  | c1 :: c2 :: rest =>
    match hexDigitToNat c1, hexDigitToNat c2, hexDecode rest with
    | some h, some l, some bs => some ((16 * h + l) :: bs)
    | _, _, _ => none

/-- mgo `bson.ObjectIdHex`: decode the hex string and require 12 bytes;
`none` models the `panic("invalid input to ObjectIdHex: ...")` branch. -/
def objectIdHex (s : String) : Option Oid :=
  match hexDecode s.data with
  | some d => if d.length = 12 then some d else none
  | none => none

/-- A struct field's runtime value/type.  `objectId` is `bson.ObjectId`,
`idAlias` is the package's `Id` string alias, `strVal` a plain `string`
(all three have reflect kind String); `timeVal` is `time.Time`
(instants as naturals); `intVal` stands for any other field type. -/
inductive FieldVal : Type
  | objectId (o : Oid)
  | idAlias (s : String)
  | strVal (s : String)
  | timeVal (t : Nat)
  | intVal (n : Int)
deriving DecidableEq, Repr

/-- Does the field have reflect kind String (string-based type)? -/
def FieldVal.isStringKind : FieldVal → Bool
  | .objectId _ => true
  | .idAlias _ => true
  | .strVal _ => true
  | _ => false

/-- Is the field of type `time.Time`? -/
def FieldVal.isTime : FieldVal → Bool
  | .timeVal _ => true
  | _ => false

/-- A struct value: association list from (exported) field name to value.
Field names are unique in a Go struct. -/
abbrev Record := List (String × FieldVal)

/-- A Go `interface{}` argument as the package inspects it: pointer to
struct, pointer to slice of structs, bare struct, bare slice, or some
other non-pointer value (represented by an int).  The `String` component
is the type name reported by reflection. -/
inductive GoVal : Type
  | ptrStruct (tn : String) (r : Record)
  | ptrSlice (tn : String) (rs : List Record)
  | structVal (tn : String) (r : Record)
  | sliceVal (tn : String) (rs : List Record)
  | intVal (n : Int)
deriving DecidableEq, Repr

/-- Errors the package returns (driver errors carry an opaque code). -/
inductive GoError : Type
  | noPtr
  | connErr
  | recordMustBeStruct
  | timeFieldType (name : String)
  | cantSetTime (name : String)
  | cantDeleteNotStruct
  | unknownIdType
  | driver (code : Nat)
deriving DecidableEq, Repr

/-- Three-way outcome: normal value, returned error, or Go panic. -/
inductive Res (α : Type) : Type
  | ok (a : α)
  | err (e : GoError)
  | panics (msg : String)
deriving DecidableEq, Repr

/-- A BSON value as used in filters/selectors. -/
inductive BsonVal : Type
  | oid (o : Oid)
  | str (s : String)
deriving DecidableEq, Repr

/-- `bson.M`: a filter/selector document. -/
abbrev BsonM := List (String × BsonVal)

/-- A successful driver write, for the audit log. -/
inductive DriverOp : Type
  | insert (coll : String) (doc : Record)
  | update (coll : String) (sel : BsonM) (doc : Record)
  | remove (coll : String) (id : Oid)
deriving DecidableEq, Repr

/-- Audit log of successful driver writes. -/
abbrev Store := List DriverOp

/-- External collaborators: the clock, the object-id generator (indexed by
the number of `bson.NewObjectId()` calls made so far), session
availability, and the driver's responses.  `insertErr`/`updateErr`/
`removeErr` return `some code` when the driver reports an error. -/
structure Env : Type where
  now : Nat
  newIds : Nat → Oid
  sessionOk : Bool
  insertErr : String → Record → Option Nat
  queryOne : String → BsonM → Except Nat Record
  queryAll : String → BsonM → Except Nat (List Record)
  updateErr : String → BsonM → Record → Option Nat
  removeErr : String → Oid → Option Nat
  countRes : String → Except Nat Nat

/-- `isPtr`: reflect kind of the argument is Ptr. -/
def isPtr : GoVal → Bool
  | .ptrStruct _ _ => true
  | .ptrSlice _ _ => true
  | _ => false

/-- `isSlice` applied to the argument's type: true for slices, also
through one pointer indirection. -/
def isSliceType : GoVal → Bool
  | .ptrSlice _ _ => true
  | .sliceVal _ _ => true
  | _ => false

/-- `typeName`: dereference a pointer, take a slice's element type (again
through a pointer), and return the type's name. -/
def typeName : GoVal → String
  | .ptrStruct tn _ => tn
  | .ptrSlice tn _ => tn
  | .structVal tn _ => tn
  | .sliceVal tn _ => tn
  | .intVal _ => "int"

/-- `reflect.Value.FieldByName`: first field with the given name, if any. -/
def lookupField : Record → String → Option FieldVal
  | [], _ => none
  | (n, fv) :: rest, m => if n = m then some fv else lookupField rest m

/-- Setting a named field, leaving all other fields unchanged. -/
def setField : Record → String → FieldVal → Record
  | [], _, _ => []
  | (n, fv) :: rest, m, x =>
    if n = m then (n, x) :: rest else (n, fv) :: setField rest m x

/-- `hasStructField`: after dereferencing a pointer, the type is a struct
and has a field of the given name. -/
def hasStructField (v : GoVal) (name : String) : Bool :=
  match v with
  | .ptrStruct _ r => (lookupField r name).isSome
  | .structVal _ r => (lookupField r name).isSome
  | _ => false

/-- `addId` (current source): dereference the pointer, require a struct;
if the `Id` field has reflect kind String, overwrite it with a fresh
object id — `f.Set(bson.NewObjectId())` when its static type is
`bson.ObjectId`, otherwise `f.SetString(bson.NewObjectId().Hex())`.
Fields of other kinds, and a missing `Id` field (zero `reflect.Value`,
kind Invalid), are left untouched.  `ids cnt` is the next generated
object id; the returned counter records the `NewObjectId` call.
`f.Set` on a non-addressable field (bare struct argument) panics. -/
def addId (ids : Nat → Oid) (cnt : Nat) : GoVal → Res (GoVal × Nat)
  | .ptrStruct tn r =>
    match lookupField r "Id" with
    | some (.objectId _) =>
      .ok (.ptrStruct tn (setField r "Id" (.objectId (ids cnt))), cnt + 1)
    | some (.idAlias _) =>
      .ok (.ptrStruct tn (setField r "Id" (.idAlias (oidHex (ids cnt)))), cnt + 1)
    | some (.strVal _) =>
      .ok (.ptrStruct tn (setField r "Id" (.strVal (oidHex (ids cnt)))), cnt + 1)
    | _ => .ok (.ptrStruct tn r, cnt)
  | .structVal tn r =>
    match lookupField r "Id" with
    | some (.objectId _) => .panics "reflect: reflect.Value.Set using unaddressable value"
    | some (.idAlias _) => .panics "reflect: reflect.Value.Set using unaddressable value"
    | some (.strVal _) => .panics "reflect: reflect.Value.Set using unaddressable value"
    | _ => .ok (.structVal tn r, cnt)
  | _ => .err .recordMustBeStruct

/-- `addCurrentDateTime`: no-op when the (dereferenced) type is not a
struct or lacks the field; error when the field exists but is not of
type `time.Time`; error when the field is not settable (bare struct
argument); otherwise set the field to `time.Now()`. -/
def addCurrentDateTime (now : Nat) (v : GoVal) (name : String) : Res GoVal :=
  if hasStructField v name = false then .ok v
  else
    match v with
    | .ptrStruct tn r =>
      match lookupField r name with
      | some (.timeVal _) => .ok (.ptrStruct tn (setField r name (.timeVal now)))
      | some _ => .err (.timeFieldType name)
      | none => .ok (.ptrStruct tn r)
    | .structVal tn r =>
      match lookupField r name with
      | some (.timeVal _) => .err (.cantSetTime name)
      | some _ => .err (.timeFieldType name)
      | none => .ok (.structVal tn r)
    | w => .ok w

/-- `addNewFields`: `addId`, then `addCurrentDateTime` for "CreatedAt",
then for "UpdatedAt"; first failure wins. -/
def addNewFields (env : Env) (cnt : Nat) (v : GoVal) : Res (GoVal × Nat) :=
  match addId env.newIds cnt v with
  | .err e => .err e
  | .panics m => .panics m
  | .ok (v1, cnt1) =>
    match addCurrentDateTime env.now v1 "CreatedAt" with
    | .err e => .err e
    | .panics m => .panics m
    | .ok v2 =>
      match addCurrentDateTime env.now v2 "UpdatedAt" with
      | .err e => .err e
      | .panics m => .panics m
      | .ok v3 => .ok (v3, cnt1)

/-- `getObjIdFromStruct` (current source): dereference the pointer,
require a struct; read the `Id` field.  A `bson.ObjectId` is returned
as is; a `bson.Getter` (the package's `Id` alias) is asked for its BSON
form — `Id.GetBSON` calls `bson.ObjectIdHex`, which panics on malformed
hex; any other field type yields the "Unknown type in Id field" error.
`reflect.Value.Interface` on the zero value (missing field) panics. -/
def getObjIdFromStruct : GoVal → Res Oid
  | .ptrStruct _ r =>
    match lookupField r "Id" with
    | none => .panics "reflect: call of reflect.Value.Interface on zero Value"
    | some (.objectId o) => .ok o
    | some (.idAlias s) =>
      match objectIdHex s with
      | some o => .ok o
      | none => .panics "invalid input to ObjectIdHex"
    | some _ => .err .unknownIdType
  | .structVal _ r =>
    match lookupField r "Id" with
    | none => .panics "reflect: call of reflect.Value.Interface on zero Value"
    | some (.objectId o) => .ok o
    | some (.idAlias s) =>
      match objectIdHex s with
      | some o => .ok o
      | none => .panics "invalid input to ObjectIdHex"
    | some _ => .err .unknownIdType
  | _ => .err .cantDeleteNotStruct

/-- One iteration of `Insert`'s loop over its variadic records: pointer
check, `addNewFields`, `GetSession`, then `coll.Insert` on the
collection named after the record's type.  A successful driver insert
is appended to the audit log. -/
def insertOne (env : Env) (cnt : Nat) (st : Store) (v : GoVal) : Res (Nat × Store) :=
  if isPtr v = false then .err .noPtr
  else
    match addNewFields env cnt v with
    | .err e => .err e
    | .panics m => .panics m
    | .ok (v1, cnt1) =>
      if env.sessionOk = false then .err .connErr
      else
        match v1 with
        | .ptrStruct tn r1 =>
          match env.insertErr tn r1 with
          | some k => .err (.driver k)
          | none => .ok (cnt1, st ++ [DriverOp.insert tn r1])
        -- unreachable: a pointer that passed addId points to a struct
        | _ => .err .recordMustBeStruct

/-- `Insert`'s loop: process records in order, stopping at the first
failure; the log and counter at the failure point are returned. -/
def insertLoop (env : Env) : Nat → Store → List GoVal → Res Unit × Nat × Store
  | cnt, st, [] => (.ok (), cnt, st)
  | cnt, st, v :: vs =>
    match insertOne env cnt st v with
    | .ok (cnt1, st1) => insertLoop env cnt1 st1 vs
    | .err e => (.err e, cnt, st)
    | .panics m => (.panics m, cnt, st)

/-- `Insert(records ...interface{})`. -/
def Insert (env : Env) (cnt : Nat) (st : Store) (records : List GoVal) :
    Res Unit × Nat × Store :=
  insertLoop env cnt st records

/-- `Find`: pointer check, session, collection from the target's type
name; `query.All` into a slice target, `query.One` into a struct
target.  Returns the populated target. -/
def Find (env : Env) (v : GoVal) (q : BsonM) : Res GoVal :=
  if isPtr v = false then .err .noPtr
  else if env.sessionOk = false then .err .connErr
  else
    let coll := typeName v
    if isSliceType v then
      match env.queryAll coll q with
      | .ok rs => .ok (.ptrSlice coll rs)
      | .error k => .err (.driver k)
    else
      match env.queryOne coll q with
      | .ok r => .ok (.ptrStruct coll r)
      | .error k => .err (.driver k)

/-- `FindById` (current source): `Find(i, bson.M{"_id": bson.ObjectIdHex(id)})`.
The filter value is built before `Find` runs, and `ObjectIdHex` panics
on anything but a well-formed hex object id. -/
def FindById (env : Env) (v : GoVal) (id : String) : Res GoVal :=
  match objectIdHex id with
  | some o => Find env v [("_id", BsonVal.oid o)]
  | none => .panics "invalid input to ObjectIdHex"

/-- `Update`: pointer check; set "UpdatedAt"; session; resolve the id
from the (already mutated) record; `coll.Update({_id: id}, i)`.  The
second component is the caller's record after the call (the in-place
mutation persists on every later error path). -/
def Update (env : Env) (st : Store) (v : GoVal) : Res Unit × GoVal × Store :=
  if isPtr v = false then (.err .noPtr, v, st)
  else
    match addCurrentDateTime env.now v "UpdatedAt" with
    | .err e => (.err e, v, st)
    | .panics m => (.panics m, v, st)
    | .ok v1 =>
      if env.sessionOk = false then (.err .connErr, v1, st)
      else
        match getObjIdFromStruct v1 with
        | .err e => (.err e, v1, st)
        | .panics m => (.panics m, v1, st)
        | .ok o =>
          match v1 with
          | .ptrStruct tn r1 =>
            match env.updateErr tn [("_id", BsonVal.oid o)] r1 with
            | some k => (.err (.driver k), v1, st)
            | none => (.ok (), v1, st ++ [DriverOp.update tn [("_id", BsonVal.oid o)] r1])
          -- unreachable: a pointer whose id resolved points to a struct
          | _ => (.err .cantDeleteNotStruct, v1, st)

/-- `Delete`: pointer check; session; resolve the id; `coll.RemoveId(id)`. -/
def Delete (env : Env) (st : Store) (v : GoVal) : Res Unit × Store :=
  if isPtr v = false then (.err .noPtr, st)
  else if env.sessionOk = false then (.err .connErr, st)
  else
    match getObjIdFromStruct v with
    | .err e => (.err e, st)
    | .panics m => (.panics m, st)
    | .ok o =>
      match env.removeErr (typeName v) o with
      | some k => (.err (.driver k), st)
      | none => (.ok (), st ++ [DriverOp.remove (typeName v) o])

/-- `Count`: session, collection from the argument's type name,
`coll.Count()`.  There is no pointer check. -/
def Count (env : Env) (v : GoVal) : Res Nat :=
  if env.sessionOk = false then .err .connErr
  else
    match env.countRes (typeName v) with
    | .ok n => .ok n
    | .error k => .err (.driver k)

/-- `Id.SetBSON`: unmarshal the raw BSON into a `bson.ObjectId` (here the
already-decoded 12 bytes) and store its hex rendering in the alias. -/
def idSetBSON (o : Oid) : String := oidHex o

/-- `Id.GetBSON`: `bson.ObjectIdHex(string(i))`; panics on malformed hex. -/
def idGetBSON (s : String) : Res Oid :=
  match objectIdHex s with
  | some o => .ok o
  | none => .panics "invalid input to ObjectIdHex"

/-- Is the `Id` field value of neither accepted identifier form
(neither `bson.ObjectId` nor the `Id` alias)? -/
def neitherIdForm : FieldVal → Bool
  | .objectId _ => false
  | .idAlias _ => false
  | _ => true

/-- The value `addId` writes into a string-kind `Id` field: the fresh id
itself for a `bson.ObjectId` field, its hex rendering for the alias or
a plain string. -/
def freshIdFor : FieldVal → Oid → FieldVal
  | .objectId _, o => .objectId o
  | .idAlias _, o => .idAlias (oidHex o)
  | .strVal _, o => .strVal (oidHex o)
  | fv, _ => fv

/-- Concrete fixtures used by witnesses and counterexamples. -/
def oidA : Oid := List.replicate 12 1

def oidB : Oid := List.replicate 12 2

def recA : Record := [("Id", FieldVal.objectId oidA)]

def envA : Env :=
  ⟨5, fun _ => oidA, true, fun _ _ => none, fun _ _ => Except.error 0,
   fun _ _ => Except.error 0, fun _ _ _ => none, fun _ _ => none,
   fun _ => Except.ok 0⟩

def envBad : Env :=
  ⟨5, fun _ => oidA, false, fun _ _ => none, fun _ _ => Except.error 0,
   fun _ _ => Except.error 0, fun _ _ _ => none, fun _ _ => none,
   fun _ => Except.ok 0⟩

theorem lookupField_setField_ne (r : Record) (a b : String) (x : FieldVal)
    (h : a ≠ b) : lookupField (setField r a x) b = lookupField r b := by
  induction r with
  | nil => rfl
  | cons p rest ih =>
    obtain ⟨pn, pv⟩ := p
    by_cases hp : pn = a
    · subst hp
      simp [setField, lookupField, h]
    · simp [setField, lookupField, hp, ih]

theorem lookupField_setField_self (r : Record) (a : String) (x : FieldVal)
    (h : (lookupField r a).isSome = true) :
    lookupField (setField r a x) a = some x := by
  induction r with
  | nil => simp [lookupField] at h
  | cons p rest ih =>
    obtain ⟨pn, pv⟩ := p
    by_cases hp : pn = a
    · subst hp
      simp [setField, lookupField]
    · simp [lookupField, hp] at h
      simp [setField, lookupField, hp, ih h]

theorem addId_ptr_shape (ids : Nat → Oid) (cnt : Nat) (tn : String) (r : Record) :
    ∃ r1 cnt1, addId ids cnt (GoVal.ptrStruct tn r) =
      Res.ok (GoVal.ptrStruct tn r1, cnt1) ∧
      ∀ m : String, m ≠ "Id" → lookupField r1 m = lookupField r m := by
  cases h : lookupField r "Id" with
  | none =>
    exact ⟨r, cnt, by simp [addId, h], fun m _ => rfl⟩
  | some fv =>
    cases fv with
    | objectId o =>
      exact ⟨setField r "Id" (FieldVal.objectId (ids cnt)), cnt + 1,
        by simp [addId, h],
        fun m hm => lookupField_setField_ne r "Id" m _ (fun he => hm he.symm)⟩
    | idAlias s =>
      exact ⟨setField r "Id" (FieldVal.idAlias (oidHex (ids cnt))), cnt + 1,
        by simp [addId, h],
        fun m hm => lookupField_setField_ne r "Id" m _ (fun he => hm he.symm)⟩
    | strVal s =>
      exact ⟨setField r "Id" (FieldVal.strVal (oidHex (ids cnt))), cnt + 1,
        by simp [addId, h],
        fun m hm => lookupField_setField_ne r "Id" m _ (fun he => hm he.symm)⟩
    | timeVal t => exact ⟨r, cnt, by simp [addId, h], fun m _ => rfl⟩
    | intVal n => exact ⟨r, cnt, by simp [addId, h], fun m _ => rfl⟩

theorem addCurrentDateTime_sets (now : Nat) (tn : String) (r : Record)
    (name : String) (t : Nat)
    (h : lookupField r name = some (FieldVal.timeVal t)) :
    addCurrentDateTime now (GoVal.ptrStruct tn r) name =
      Res.ok (GoVal.ptrStruct tn (setField r name (FieldVal.timeVal now))) := by
  simp [addCurrentDateTime, hasStructField, h]

theorem addCurrentDateTime_absent (now : Nat) (tn : String) (r : Record)
    (name : String) (h : lookupField r name = none) :
    addCurrentDateTime now (GoVal.ptrStruct tn r) name =
      Res.ok (GoVal.ptrStruct tn r) := by
  simp [addCurrentDateTime, hasStructField, h]

theorem insertLoop_append_ok (env : Env) (cnt : Nat) (st : Store)
    (rs1 rs2 : List GoVal) (cnt1 : Nat) (st1 : Store)
    (h : insertLoop env cnt st rs1 = (Res.ok (), cnt1, st1)) :
    insertLoop env cnt st (rs1 ++ rs2) = insertLoop env cnt1 st1 rs2 := by
  induction rs1 generalizing cnt st with
  | nil =>
    simp [insertLoop] at h
    simp [h.1, h.2]
  | cons v vs ih =>
    cases hi : insertOne env cnt st v with
    | ok p =>
      obtain ⟨cnt2, st2⟩ := p
      simp [insertLoop, hi] at h
      simpa [insertLoop, hi] using ih cnt2 st2 h
    | err e => simp [insertLoop, hi] at h
    | panics m => simp [insertLoop, hi] at h

theorem insertOne_ok_store (env : Env) (cnt : Nat) (st : Store) (v : GoVal)
    (cnt1 : Nat) (st1 : Store) (h : insertOne env cnt st v = Res.ok (cnt1, st1)) :
    ∃ c d, st1 = st ++ [DriverOp.insert c d] := by
  unfold insertOne at h
  split at h
  · cases h
  · cases haf : addNewFields env cnt v with
    | err e => rw [haf] at h; cases h
    | panics m => rw [haf] at h; cases h
    | ok p =>
      obtain ⟨v1, cntX⟩ := p
      rw [haf] at h
      simp only at h
      split at h
      · cases h
      · cases v1 with
        | ptrStruct tn r1 =>
          simp only at h
          cases hie : env.insertErr tn r1 with
          | some k => rw [hie] at h; cases h
          | none =>
            rw [hie] at h
            simp only [Res.ok.injEq, Prod.mk.injEq] at h
            exact ⟨tn, r1, h.2.symm⟩
        | ptrSlice tn rs => cases h
        | structVal tn r => cases h
        | sliceVal tn rs => cases h
        | intVal n => cases h

theorem insertLoop_ok_store (env : Env) (cnt : Nat) (st : Store)
    (rs : List GoVal) (cnt1 : Nat) (st1 : Store)
    (h : insertLoop env cnt st rs = (Res.ok (), cnt1, st1)) :
    ∃ ops : Store, st1 = st ++ ops ∧ ops.length = rs.length ∧
      ∀ op ∈ ops, ∃ c d, op = DriverOp.insert c d := by
  induction rs generalizing cnt st with
  | nil =>
    simp [insertLoop] at h
    exact ⟨[], by simp [h.2], rfl, by simp⟩
  | cons v vs ih =>
    cases hi : insertOne env cnt st v with
    | ok p =>
      obtain ⟨cnt2, st2⟩ := p
      simp only [insertLoop, hi] at h
      obtain ⟨ops, hst, hlen, hall⟩ := ih cnt2 st2 h
      obtain ⟨c, d, hd⟩ := insertOne_ok_store env cnt st v cnt2 st2 hi
      refine ⟨DriverOp.insert c d :: ops, ?_, by simp [hlen], ?_⟩
      · rw [hst, hd]; simp
      · intro op hop
        rcases List.mem_cons.mp hop with h1 | h2
        · exact ⟨c, d, h1⟩
        · exact hall op h2
    | err e => simp [insertLoop, hi] at h
    | panics m => simp [insertLoop, hi] at h

theorem update_record_after (env : Env) (st : Store) (v v1 : GoVal)
    (hp : isPtr v = true)
    (h : addCurrentDateTime env.now v "UpdatedAt" = Res.ok v1) :
    (Update env st v).2.1 = v1 := by
  unfold Update
  rw [hp]
  simp only [Bool.true_eq_false, if_false, h]
  by_cases hs : env.sessionOk = false
  · simp [hs]
  · simp only [if_neg hs]
    cases getObjIdFromStruct v1 with
    | ok o =>
      simp only
      cases v1 with
      | ptrStruct tn r1 =>
        simp only
        cases env.updateErr tn [("_id", BsonVal.oid o)] r1 <;> simp
      | ptrSlice tn rs => simp
      | structVal tn r => simp
      | sliceVal tn rs => simp
      | intVal n => simp
    | err e => simp
    | panics m => simp

theorem hexDigit_roundtrip : ∀ h : Nat, h < 16 →
    hexDigitToNat (natToHexDigit h) = some h := by decide

theorem hexDecode_oidHexChars (o : Oid) (hb : ∀ b ∈ o, b < 256) :
    hexDecode (oidHexChars o) = some o := by
  induction o with
  | nil => rfl
  | cons b rest ih =>
    have hb1 : b < 256 := hb b (List.mem_cons_self b rest)
    have hrest : ∀ x ∈ rest, x < 256 := fun x hx => hb x (List.mem_cons_of_mem _ hx)
    have hd : b / 16 < 16 := Nat.div_lt_of_lt_mul (by omega)
    have hm : b % 16 < 16 := Nat.mod_lt _ (by omega)
    have hsum : 16 * (b / 16) + b % 16 = b := Nat.div_add_mod b 16
    have htail : hexDecode (oidHexChars rest) = some rest := ih hrest
    have hchars : oidHexChars (b :: rest) =
        natToHexDigit (b / 16) :: natToHexDigit (b % 16) :: oidHexChars rest := rfl
    rw [hchars]
    simp only [hexDecode, hexDigit_roundtrip _ hd, hexDigit_roundtrip _ hm, htail]
    rw [hsum]

theorem objectIdHex_oidHex (o : Oid) (h12 : o.length = 12)
    (hb : ∀ b ∈ o, b < 256) : objectIdHex (oidHex o) = some o := by
  have hdata : (oidHex o).data = oidHexChars o := rfl
  simp [objectIdHex, hdata, hexDecode_oidHexChars o hb, h12]

/-- C7: decoding a valid 12-byte object identifier into the string alias
(`Id.SetBSON` stores the hex rendering) and serializing it back
(`Id.GetBSON` applies `bson.ObjectIdHex`) yields the same canonical
binary object identifier. -/
theorem id_alias_set_get_roundtrip (o : Oid) (h12 : o.length = 12)
    (hb : ∀ b ∈ o, b < 256) : idGetBSON (idSetBSON o) = Res.ok o := by
  simp [idGetBSON, idSetBSON, objectIdHex_oidHex o h12 hb]

/-- Witness for C7 at the concrete object id `oidA`. -/
theorem id_alias_set_get_roundtrip_witness :
    oidA.length = 12 ∧ (∀ b ∈ oidA, b < 256) ∧
      idGetBSON (idSetBSON oidA) = Res.ok oidA :=
  ⟨by decide, by decide, id_alias_set_get_roundtrip oidA (by decide) (by decide)⟩

/-- C9: on an input id that is not a well-formed hex object identifier,
`FindById` does not return through its error result: `bson.ObjectIdHex`
panics while the identifier-equality filter is being constructed, for
every target and driver environment. -/
theorem findById_panics_on_malformed_id (env : Env) (v : GoVal) :
    FindById env v "zz" = Res.panics "invalid input to ObjectIdHex" := by
  have h : objectIdHex "zz" = none := by decide
  simp [FindById, h]

/-- Witness for C9 at a concrete environment and target. -/
theorem findById_panics_on_malformed_id_witness :
    FindById envA (GoVal.ptrStruct "T" []) "zz" =
      Res.panics "invalid input to ObjectIdHex" :=
  findById_panics_on_malformed_id envA (GoVal.ptrStruct "T" [])

/-- C2 counterexample: at the malformed id "zz", `FindById` panics while
`Find` with the literal filter `{_id = "zz"}` returns an error value,
so the claimed equivalence fails at this input. -/
theorem findById_differs_from_raw_string_filter :
    FindById envBad (GoVal.ptrStruct "T" []) "zz" ≠
      Find envBad (GoVal.ptrStruct "T" []) [("_id", BsonVal.str "zz")] := by
  decide

/-- C2 (amended): for every id string that decodes as a hex object
identifier, `FindById(target, id)` returns exactly the result of
`Find(target, {_id = ObjectIdHex(id)})`, in every driver environment
and for every target; on a malformed id it panics instead of calling
`Find`. -/
theorem findById_is_find_on_decoded_id (env : Env) (v : GoVal) (id : String)
    (o : Oid) (h : objectIdHex id = some o) :
    FindById env v id = Find env v [("_id", BsonVal.oid o)] := by
  simp [FindById, h]

/-- Witness for C2's amended theorem at a concrete well-formed id. -/
theorem findById_is_find_on_decoded_id_witness :
    objectIdHex "010101010101010101010101" = some oidA ∧
    FindById envA (GoVal.ptrStruct "T" []) "010101010101010101010101" =
      Find envA (GoVal.ptrStruct "T" []) [("_id", BsonVal.oid oidA)] :=
  ⟨by decide,
   findById_is_find_on_decoded_id envA (GoVal.ptrStruct "T" [])
     "010101010101010101010101" oidA (by decide)⟩

/-- C6: identifier resolution locates the field named "Id"; it accepts a
native `bson.ObjectId` (returned as is) and the string alias whose
content round-trips through `bson.ObjectIdHex`, and it returns the
"Unknown type in Id field" error — neither succeeding nor panicking —
when the field is of neither form. -/
theorem id_resolution_two_forms (tn : String) (r : Record) :
    (∀ o, lookupField r "Id" = some (FieldVal.objectId o) →
      getObjIdFromStruct (GoVal.ptrStruct tn r) = Res.ok o) ∧
    (∀ s o, lookupField r "Id" = some (FieldVal.idAlias s) →
      objectIdHex s = some o →
      getObjIdFromStruct (GoVal.ptrStruct tn r) = Res.ok o) ∧
    (∀ fv, lookupField r "Id" = some fv → neitherIdForm fv = true →
      getObjIdFromStruct (GoVal.ptrStruct tn r) = Res.err GoError.unknownIdType) := by
  refine ⟨?_, ?_, ?_⟩
  · intro o h
    simp [getObjIdFromStruct, h]
  · intro s o h hs
    simp [getObjIdFromStruct, h, hs]
  · intro fv h hk
    cases fv <;> simp_all [getObjIdFromStruct, neitherIdForm]

/-- Witness for C6: the three branches at concrete records — a native
object-id field, an alias field holding the hex of `oidA`, and an
integer-typed field. -/
theorem id_resolution_two_forms_witness :
    (lookupField recA "Id" = some (FieldVal.objectId oidA) ∧
      getObjIdFromStruct (GoVal.ptrStruct "T" recA) = Res.ok oidA) ∧
    (lookupField [("Id", FieldVal.idAlias (oidHex oidA))] "Id" =
        some (FieldVal.idAlias (oidHex oidA)) ∧
      objectIdHex (oidHex oidA) = some oidA ∧
      getObjIdFromStruct (GoVal.ptrStruct "T" [("Id", FieldVal.idAlias (oidHex oidA))]) =
        Res.ok oidA) ∧
    (lookupField [("Id", FieldVal.intVal 3)] "Id" = some (FieldVal.intVal 3) ∧
      neitherIdForm (FieldVal.intVal 3) = true ∧
      getObjIdFromStruct (GoVal.ptrStruct "T" [("Id", FieldVal.intVal 3)]) =
        Res.err GoError.unknownIdType) :=
  ⟨⟨by decide, (id_resolution_two_forms "T" recA).1 oidA (by decide)⟩,
   ⟨by decide, by decide,
    (id_resolution_two_forms "T" [("Id", FieldVal.idAlias (oidHex oidA))]).2.1
      (oidHex oidA) oidA (by decide) (by decide)⟩,
   ⟨by decide, by decide,
    (id_resolution_two_forms "T" [("Id", FieldVal.intVal 3)]).2.2
      (FieldVal.intVal 3) (by decide) (by decide)⟩⟩

/-- C10: `Count` performs no pointer check: it never returns the `NoPtr`
error, its result depends only on the argument's derived type name, and
whenever a session is available it returns exactly the driver's count
for the collection named after the argument's type — for every
argument, pointer or not. -/
theorem count_no_pointer_check (env : Env) (v : GoVal) :
    Count env v ≠ Res.err GoError.noPtr ∧
    (∀ w : GoVal, typeName w = typeName v → Count env w = Count env v) ∧
    (env.sessionOk = true →
      Count env v =
        match env.countRes (typeName v) with
        | Except.ok n => Res.ok n
        | Except.error k => Res.err (GoError.driver k)) := by
  refine ⟨?_, ?_, ?_⟩
  · unfold Count
    by_cases hs : env.sessionOk = false
    · simp [hs]
    · simp only [if_neg hs]
      cases env.countRes (typeName v) <;> simp
  · intro w hw
    unfold Count
    rw [hw]
  · intro hs
    unfold Count
    simp [hs]

/-- Witness for C10 at the non-pointer argument `GoVal.intVal 7`. -/
theorem count_no_pointer_check_witness :
    isPtr (GoVal.intVal 7) = false ∧
    Count envA (GoVal.intVal 7) ≠ Res.err GoError.noPtr ∧
    (typeName (GoVal.structVal "int" []) = typeName (GoVal.intVal 7) ∧
      Count envA (GoVal.structVal "int" []) = Count envA (GoVal.intVal 7)) ∧
    (envA.sessionOk = true ∧
      Count envA (GoVal.intVal 7) =
        match envA.countRes (typeName (GoVal.intVal 7)) with
        | Except.ok n => Res.ok n
        | Except.error k => Res.err (GoError.driver k)) :=
  ⟨by decide,
   (count_no_pointer_check envA (GoVal.intVal 7)).1,
   ⟨by decide,
    (count_no_pointer_check envA (GoVal.intVal 7)).2.1
      (GoVal.structVal "int" []) (by decide)⟩,
   ⟨by decide,
    (count_no_pointer_check envA (GoVal.intVal 7)).2.2 (by decide)⟩⟩

/-- C1 counterexample: a record whose `Id` field already holds a valid
(12-byte) object identifier is not left unchanged — `addId`, as run by
`Insert` on every record, replaces it with the freshly generated id. -/
theorem addId_overwrites_preset_valid_id :
    oidValid oidA = true ∧
    addId (fun _ => oidB) 0 (GoVal.ptrStruct "T" recA) =
      Res.ok (GoVal.ptrStruct "T" [("Id", FieldVal.objectId oidB)], 1) ∧
    oidB ≠ oidA := by decide

/-- C1 (amended): `Insert`'s id preparation assigns a fresh identifier to
every record whose `Id` field is of string kind — the native
`bson.ObjectId`, the `Id` alias, or a plain string — overwriting any
pre-set value whether valid or not; only a record whose `Id` field is
absent or of non-string kind keeps its field values. -/
theorem addId_fresh_id_policy (ids : Nat → Oid) (cnt : Nat) (tn : String)
    (r : Record) :
    (∀ fv, lookupField r "Id" = some fv → fv.isStringKind = true →
      addId ids cnt (GoVal.ptrStruct tn r) =
        Res.ok (GoVal.ptrStruct tn (setField r "Id" (freshIdFor fv (ids cnt))), cnt + 1)) ∧
    ((∀ fv, lookupField r "Id" = some fv → fv.isStringKind = false) →
      addId ids cnt (GoVal.ptrStruct tn r) = Res.ok (GoVal.ptrStruct tn r, cnt)) := by
  constructor
  · intro fv h hk
    cases fv <;> simp_all [addId, freshIdFor, FieldVal.isStringKind]
  · intro hall
    cases h : lookupField r "Id" with
    | none => simp [addId, h]
    | some fv =>
      have := hall fv h
      cases fv <;> simp_all [addId, FieldVal.isStringKind]

/-- Witness for C1's amended theorem: the fresh id replaces a pre-set
native object id. -/
theorem addId_fresh_id_policy_witness :
    lookupField recA "Id" = some (FieldVal.objectId oidA) ∧
    (FieldVal.objectId oidA).isStringKind = true ∧
    addId (fun _ => oidB) 0 (GoVal.ptrStruct "T" recA) =
      Res.ok (GoVal.ptrStruct "T"
        (setField recA "Id" (freshIdFor (FieldVal.objectId oidA) oidB)), 1) :=
  ⟨by decide, by decide,
   (addId_fresh_id_policy (fun _ => oidB) 0 "T" recA).1 (FieldVal.objectId oidA)
     (by decide) (by decide)⟩

/-- C3 counterexample: `Insert` called with a pointer record followed by a
non-pointer returns `NoPtr`, yet a storage write has been performed —
the first record was inserted before the pointer check failed. -/
theorem insert_nonptr_after_write :
    Insert envA 0 [] [GoVal.ptrStruct "T" recA, GoVal.structVal "T" recA] =
      (Res.err GoError.noPtr, 1, [DriverOp.insert "T" recA]) ∧
    ([DriverOp.insert "T" recA] : Store) ≠ ([] : Store) := by decide

/-- C3 (amended): whenever the first failing record of an `Insert` call is
a non-pointer, the call returns `NoPtr` and performs no storage write
for that record or any later one; records preceding it have already
been inserted (with an empty prefix, no write at all occurs). -/
theorem insert_stops_at_nonptr (env : Env) (cnt : Nat) (st : Store)
    (rs1 : List GoVal) (v : GoVal) (rs2 : List GoVal) (cnt1 : Nat) (st1 : Store)
    (h1 : insertLoop env cnt st rs1 = (Res.ok (), cnt1, st1))
    (h2 : isPtr v = false) :
    Insert env cnt st (rs1 ++ v :: rs2) = (Res.err GoError.noPtr, cnt1, st1) := by
  unfold Insert
  rw [insertLoop_append_ok env cnt st rs1 (v :: rs2) cnt1 st1 h1]
  simp [insertLoop, insertOne, h2]

/-- Witness for C3's amended theorem: a single non-pointer argument gives
`NoPtr` and leaves the store empty. -/
theorem insert_stops_at_nonptr_witness :
    insertLoop envA 0 [] [] = (Res.ok (), 0, []) ∧
    isPtr (GoVal.structVal "T" recA) = false ∧
    Insert envA 0 [] ([] ++ GoVal.structVal "T" recA :: []) =
      (Res.err GoError.noPtr, 0, []) :=
  ⟨rfl, by decide,
   insert_stops_at_nonptr envA 0 [] [] (GoVal.structVal "T" recA) [] 0 [] rfl
     (by decide)⟩

/-- C4: if, in a batch `Insert`, every record of the prefix succeeds and
the next record fails (non-pointer, field-preparation, session or
driver error), the call returns that error; the final store is exactly
the incoming store extended by one insert per prefix record, and the
records after the failing one are never attempted — the result does not
depend on them at all. -/
theorem insert_fail_fast (env : Env) (cnt : Nat) (st : Store)
    (rs1 : List GoVal) (v : GoVal) (rs2 : List GoVal) (cnt1 : Nat) (st1 : Store)
    (e : GoError)
    (h1 : insertLoop env cnt st rs1 = (Res.ok (), cnt1, st1))
    (h2 : insertOne env cnt1 st1 v = Res.err e) :
    Insert env cnt st (rs1 ++ v :: rs2) = (Res.err e, cnt1, st1) ∧
    ∃ ops : Store, st1 = st ++ ops ∧ ops.length = rs1.length ∧
      ∀ op ∈ ops, ∃ c d, op = DriverOp.insert c d := by
  constructor
  · unfold Insert
    rw [insertLoop_append_ok env cnt st rs1 (v :: rs2) cnt1 st1 h1]
    simp [insertLoop, h2]
  · exact insertLoop_ok_store env cnt st rs1 cnt1 st1 h1

/-- Witness for C4: one successful record, then a non-pointer, then one
further record that is never attempted. -/
theorem insert_fail_fast_witness :
    insertLoop envA 0 [] [GoVal.ptrStruct "T" recA] =
      (Res.ok (), 1, [DriverOp.insert "T" recA]) ∧
    insertOne envA 1 [DriverOp.insert "T" recA] (GoVal.intVal 7) =
      Res.err GoError.noPtr ∧
    (Insert envA 0 []
        ([GoVal.ptrStruct "T" recA] ++ GoVal.intVal 7 :: [GoVal.ptrStruct "T" recA]) =
        (Res.err GoError.noPtr, 1, [DriverOp.insert "T" recA]) ∧
      ∃ ops : Store, [DriverOp.insert "T" recA] = [] ++ ops ∧
        ops.length = [GoVal.ptrStruct "T" recA].length ∧
        ∀ op ∈ ops, ∃ c d, op = DriverOp.insert c d) :=
  ⟨by decide, by decide,
   insert_fail_fast envA 0 [] [GoVal.ptrStruct "T" recA] (GoVal.intVal 7)
     [GoVal.ptrStruct "T" recA] 1 [DriverOp.insert "T" recA] GoError.noPtr
     (by decide) (by decide)⟩

/-- C5: for a pointer record with time-typed `CreatedAt` and `UpdatedAt`
fields, `Insert`'s field preparation stamps both fields with the call
time, while `Update` stamps only `UpdatedAt` and leaves every other
field of the in-memory record unchanged. -/
theorem insert_update_timestamp_discipline (env : Env) (cnt : Nat) (st : Store)
    (tn : String) (r : Record) (t1 t2 : Nat)
    (hc : lookupField r "CreatedAt" = some (FieldVal.timeVal t1))
    (hu : lookupField r "UpdatedAt" = some (FieldVal.timeVal t2)) :
    (∃ r1 cnt1, addNewFields env cnt (GoVal.ptrStruct tn r) =
        Res.ok (GoVal.ptrStruct tn r1, cnt1) ∧
      lookupField r1 "CreatedAt" = some (FieldVal.timeVal env.now) ∧
      lookupField r1 "UpdatedAt" = some (FieldVal.timeVal env.now)) ∧
    ((Update env st (GoVal.ptrStruct tn r)).2.1 =
        GoVal.ptrStruct tn (setField r "UpdatedAt" (FieldVal.timeVal env.now)) ∧
      lookupField (setField r "UpdatedAt" (FieldVal.timeVal env.now)) "UpdatedAt" =
        some (FieldVal.timeVal env.now) ∧
      ∀ m : String, m ≠ "UpdatedAt" →
        lookupField (setField r "UpdatedAt" (FieldVal.timeVal env.now)) m =
          lookupField r m) := by
  obtain ⟨rI, cntI, haddId, hpres⟩ := addId_ptr_shape env.newIds cnt tn r
  have hcI : lookupField rI "CreatedAt" = some (FieldVal.timeVal t1) := by
    rw [hpres "CreatedAt" (by decide), hc]
  have huI : lookupField rI "UpdatedAt" = some (FieldVal.timeVal t2) := by
    rw [hpres "UpdatedAt" (by decide), hu]
  have hC := addCurrentDateTime_sets env.now tn rI "CreatedAt" t1 hcI
  have huR2 : lookupField (setField rI "CreatedAt" (FieldVal.timeVal env.now))
      "UpdatedAt" = some (FieldVal.timeVal t2) := by
    rw [lookupField_setField_ne _ _ _ _ (by decide), huI]
  have hU := addCurrentDateTime_sets env.now tn
    (setField rI "CreatedAt" (FieldVal.timeVal env.now)) "UpdatedAt" t2 huR2
  refine ⟨⟨setField (setField rI "CreatedAt" (FieldVal.timeVal env.now))
      "UpdatedAt" (FieldVal.timeVal env.now), cntI, ?_, ?_, ?_⟩, ?_, ?_, ?_⟩
  · simp [addNewFields, haddId, hC, hU]
  · rw [lookupField_setField_ne _ _ _ _ (by decide)]
    exact lookupField_setField_self rI "CreatedAt" _ (by rw [hcI]; rfl)
  · exact lookupField_setField_self _ "UpdatedAt" _ (by rw [huR2]; rfl)
  · exact update_record_after env st _ _ rfl
      (addCurrentDateTime_sets env.now tn r "UpdatedAt" t2 hu)
  · exact lookupField_setField_self r "UpdatedAt" _ (by rw [hu]; rfl)
  · intro m hm
    exact lookupField_setField_ne r "UpdatedAt" m _ (fun he => hm he.symm)

/-- A record with an id and both timestamp fields, for C5's witness. -/
def recB : Record :=
  [("Id", FieldVal.objectId oidA), ("CreatedAt", FieldVal.timeVal 3),
   ("UpdatedAt", FieldVal.timeVal 4)]

/-- Witness for C5 at the concrete record `recB` and clock value 5. -/
theorem insert_update_timestamp_discipline_witness :
    lookupField recB "CreatedAt" = some (FieldVal.timeVal 3) ∧
    lookupField recB "UpdatedAt" = some (FieldVal.timeVal 4) ∧
    ((∃ r1 cnt1, addNewFields envA 0 (GoVal.ptrStruct "T" recB) =
        Res.ok (GoVal.ptrStruct "T" r1, cnt1) ∧
      lookupField r1 "CreatedAt" = some (FieldVal.timeVal envA.now) ∧
      lookupField r1 "UpdatedAt" = some (FieldVal.timeVal envA.now)) ∧
    ((Update envA [] (GoVal.ptrStruct "T" recB)).2.1 =
        GoVal.ptrStruct "T" (setField recB "UpdatedAt" (FieldVal.timeVal envA.now)) ∧
      lookupField (setField recB "UpdatedAt" (FieldVal.timeVal envA.now)) "UpdatedAt" =
        some (FieldVal.timeVal envA.now) ∧
      ∀ m : String, m ≠ "UpdatedAt" →
        lookupField (setField recB "UpdatedAt" (FieldVal.timeVal envA.now)) m =
          lookupField recB m)) :=
  ⟨by decide, by decide,
   insert_update_timestamp_discipline envA 0 [] "T" recB 3 4 (by decide) (by decide)⟩

theorem addCurrentDateTime_wrong_type (now : Nat) (tn : String) (r : Record)
    (name : String) (fv : FieldVal) (h : lookupField r name = some fv)
    (ht : fv.isTime = false) :
    addCurrentDateTime now (GoVal.ptrStruct tn r) name =
      Res.err (GoError.timeFieldType name) := by
  cases fv <;> simp_all [addCurrentDateTime, hasStructField, FieldVal.isTime]

/-- C8: a `CreatedAt` or `UpdatedAt` field that exists with a non-time
type makes the operation fail — `Insert` for either field, `Update` for
`UpdatedAt` — returning the type error with the store untouched; an
absent field is skipped silently, with no error and no mutation. -/
theorem timestamp_type_enforcement (env : Env) (cnt : Nat) (st : Store)
    (tn : String) (r : Record) :
    (∀ fv, lookupField r "CreatedAt" = some fv → fv.isTime = false →
      Insert env cnt st [GoVal.ptrStruct tn r] =
        (Res.err (GoError.timeFieldType "CreatedAt"), cnt, st)) ∧
    (lookupField r "CreatedAt" = none →
      ∀ fv, lookupField r "UpdatedAt" = some fv → fv.isTime = false →
      Insert env cnt st [GoVal.ptrStruct tn r] =
        (Res.err (GoError.timeFieldType "UpdatedAt"), cnt, st)) ∧
    (∀ fv, lookupField r "UpdatedAt" = some fv → fv.isTime = false →
      Update env st (GoVal.ptrStruct tn r) =
        (Res.err (GoError.timeFieldType "UpdatedAt"), GoVal.ptrStruct tn r, st)) ∧
    (lookupField r "CreatedAt" = none →
      addCurrentDateTime env.now (GoVal.ptrStruct tn r) "CreatedAt" =
        Res.ok (GoVal.ptrStruct tn r)) ∧
    (lookupField r "UpdatedAt" = none →
      (Update env st (GoVal.ptrStruct tn r)).2.1 = GoVal.ptrStruct tn r) := by
  obtain ⟨rI, cntI, haddId, hpres⟩ := addId_ptr_shape env.newIds cnt tn r
  refine ⟨?_, ?_, ?_, ?_, ?_⟩
  · intro fv h ht
    have hcI : lookupField rI "CreatedAt" = some fv := by
      rw [hpres "CreatedAt" (by decide), h]
    have hfail := addCurrentDateTime_wrong_type env.now tn rI "CreatedAt" fv hcI ht
    simp [Insert, insertLoop, insertOne, isPtr, addNewFields, haddId, hfail]
  · intro hc fv h ht
    have hcI : lookupField rI "CreatedAt" = none := by
      rw [hpres "CreatedAt" (by decide), hc]
    have huI : lookupField rI "UpdatedAt" = some fv := by
      rw [hpres "UpdatedAt" (by decide), h]
    have hok := addCurrentDateTime_absent env.now tn rI "CreatedAt" hcI
    have hfail := addCurrentDateTime_wrong_type env.now tn rI "UpdatedAt" fv huI ht
    simp [Insert, insertLoop, insertOne, isPtr, addNewFields, haddId, hok, hfail]
  · intro fv h ht
    have hfail := addCurrentDateTime_wrong_type env.now tn r "UpdatedAt" fv h ht
    simp [Update, isPtr, hfail]
  · intro hc
    exact addCurrentDateTime_absent env.now tn r "CreatedAt" hc
  · intro hu
    exact update_record_after env st _ _ rfl
      (addCurrentDateTime_absent env.now tn r "UpdatedAt" hu)

/-- Witness for C8: a non-time `CreatedAt` blocks `Insert`, a non-time
`UpdatedAt` blocks `Update`, and absent timestamp fields are skipped. -/
theorem timestamp_type_enforcement_witness :
    (lookupField [("CreatedAt", FieldVal.intVal 0)] "CreatedAt" =
        some (FieldVal.intVal 0) ∧
      (FieldVal.intVal 0).isTime = false ∧
      Insert envA 0 [] [GoVal.ptrStruct "T" [("CreatedAt", FieldVal.intVal 0)]] =
        (Res.err (GoError.timeFieldType "CreatedAt"), 0, [])) ∧
    (lookupField [("UpdatedAt", FieldVal.strVal "x")] "UpdatedAt" =
        some (FieldVal.strVal "x") ∧
      Update envA [] (GoVal.ptrStruct "T" [("UpdatedAt", FieldVal.strVal "x")]) =
        (Res.err (GoError.timeFieldType "UpdatedAt"),
         GoVal.ptrStruct "T" [("UpdatedAt", FieldVal.strVal "x")], [])) ∧
    (lookupField recA "CreatedAt" = none ∧
      addCurrentDateTime envA.now (GoVal.ptrStruct "T" recA) "CreatedAt" =
        Res.ok (GoVal.ptrStruct "T" recA)) ∧
    (lookupField recA "UpdatedAt" = none ∧
      (Update envA [] (GoVal.ptrStruct "T" recA)).2.1 = GoVal.ptrStruct "T" recA) :=
  ⟨⟨by decide, by decide,
    (timestamp_type_enforcement envA 0 [] "T" [("CreatedAt", FieldVal.intVal 0)]).1
      (FieldVal.intVal 0) (by decide) (by decide)⟩,
   ⟨by decide,
    (timestamp_type_enforcement envA 0 [] "T"
        [("UpdatedAt", FieldVal.strVal "x")]).2.2.1
      (FieldVal.strVal "x") (by decide) (by decide)⟩,
   ⟨by decide,
    (timestamp_type_enforcement envA 0 [] "T" recA).2.2.2.1 (by decide)⟩,
   ⟨by decide,
    (timestamp_type_enforcement envA 0 [] "T" recA).2.2.2.2 (by decide)⟩⟩

end Mongo
